import Mathlib

/-!
Verification of the oss-dashboard analytics core against its specification.

The Python source is shallowly embedded: SQLite tables become Lean lists of
row structures, `INSERT OR REPLACE` under a UNIQUE key becomes
filter-out-then-append, Python floats become rationals, Python `None` becomes
`Option`, and Python truthiness of strings/lists/dicts is modelled explicitly.
Dates are modelled as integer day numbers; "today" (obtained from the clock in
the source) is an explicit parameter.
-/

set_option maxRecDepth 4000

/-! ## String utilities (Python `in`, `lower()`, slicing) -/

/-- Whether the first character list is a prefix of the second (Boolean). -/
def headMatch : List Char → List Char → Bool
  | [], _ => true
  | _ :: _, [] => false
  | a :: as, b :: bs => a == b && headMatch as bs

/-- Whether `pat` occurs as a contiguous sublist of the text (Boolean). -/
def occursInChars (pat : List Char) : List Char → Bool
  | [] => pat.isEmpty
  | b :: bs => headMatch pat (b :: bs) || occursInChars pat bs

/-- Python's substring test `pat in text`. -/
def occursIn (pat text : String) : Bool := occursInChars pat.data text.data

/-- Python's `str.lower()` (ASCII, which covers all inputs used here). -/
def lowerStr (s : String) : String := ⟨s.data.map Char.toLower⟩

/-- Python's slice `s[:n]`: the first `n` characters of `s`. -/
def strTake (s : String) (n : Nat) : String := ⟨s.data.take n⟩

/-! ## Rounding (Python `round(x, 2)`)

Python `round` uses round-half-to-even.  Metric values are modelled as
rationals, so `round(x, 2)` becomes `pyRound2`. -/

/-- Round a rational to the nearest integer, ties to even (Python `round`). -/
def roundHalfEven (q : ℚ) : ℤ :=
  let f := ⌊q⌋
  let r := q - f
  if r < 1/2 then f
  else if r > 1/2 then f + 1
  else if f % 2 = 0 then f else f + 1

/-- Python `round(q, 2)`. -/
def pyRound2 (q : ℚ) : ℚ := (roundHalfEven (q * 100) : ℚ) / 100

/-! ## `database.calculate_growth_rate` (src/database.py lines 184-190) -/

/-- Embedding of `calculate_growth_rate(current, previous)`:
returns `None` if `previous` is `None` or `0`, or `current` is `None`;
otherwise `round(((current - previous) / previous) * 100, 2)`. -/
def calculate_growth_rate (current previous : Option ℚ) : Option ℚ :=
  match previous with
  | none => none
  | some p =>
    if p = 0 then none
    else
      match current with
      | none => none
      | some c => some (pyRound2 ((c - p) / p * 100))

/-! ## Snapshot store (src/database.py)

The `snapshots` table has `UNIQUE(repo_id, snapshot_date)`; `save_snapshot`
uses `INSERT OR REPLACE`, which deletes any row conflicting on that key and
inserts the new one.  A table is a list of rows; the replaced row is appended
at the end.  Columns `save_snapshot` never writes (`watchers`, `open_issues`)
are omitted from the row model. -/

/-- Metric columns written by `save_snapshot` (lines 146-162). -/
structure SnapMetrics where
  stars : Option ℚ
  forks : Option ℚ
  contributors : Option ℚ
  dependents : Option ℚ
  downloads : Option ℚ
  download_source : Option String
  commits_30d : Option ℚ
  prs_30d : Option ℚ
  issues_30d : Option ℚ
  deriving DecidableEq

/-- One row of the `snapshots` table. -/
structure SnapshotRow where
  repo_id : Nat
  snapshot_date : Int
  metrics : SnapMetrics
  deriving DecidableEq

/-- The UNIQUE key of the `snapshots` table: `(repo_id, snapshot_date)`. -/
def snapKey (rid : Nat) (d : Int) (r : SnapshotRow) : Bool :=
  r.repo_id == rid && r.snapshot_date == d

/-- Embedding of `save_snapshot(repo_id, metrics)` (lines 139-165):
`INSERT OR REPLACE` keyed on `(repo_id, snapshot_date)`; `today` is the
clock-supplied snapshot date. -/
def save_snapshot (rid : Nat) (today : Int) (m : SnapMetrics)
    (table : List SnapshotRow) : List SnapshotRow :=
  table.filter (fun r => !(snapKey rid today r)) ++ [⟨rid, today, m⟩]

/-- Embedding of the inner `get_snapshot_near(date)` query of
`calculate_growth_metrics` (lines 204-211): the row for `rid` with the
largest `snapshot_date ≤ d`, if any. -/
def get_snapshot_near (rid : Nat) (d : Int) : List SnapshotRow → Option SnapshotRow
  | [] => none
  | r :: rs =>
    let best := get_snapshot_near rid d rs
    if r.repo_id = rid ∧ r.snapshot_date ≤ d then
      match best with
      | none => some r
      | some b => if b.snapshot_date < r.snapshot_date then some r else some b
    else best

/-! ## Growth calculator (src/database.py lines 192-274) -/

/-- The metrics dict built by `calculate_growth_metrics` (lines 223-255). -/
structure GrowthMetrics where
  stars_wow : Option ℚ
  stars_mom : Option ℚ
  stars_acceleration : Option ℚ
  forks_wow : Option ℚ
  forks_mom : Option ℚ
  downloads_wow : Option ℚ
  downloads_mom : Option ℚ
  contributors_wow : Option ℚ
  contributors_mom : Option ℚ
  deriving DecidableEq

/-- Embedding of `calculate_growth_metrics(repo_id)` (computation part,
lines 197-255): `today` is the clock value; returns `none` when the repo has
no snapshot on-or-before `today` (the code returns `None` without writing).
The unused `two_months_ago` query of the source is omitted. -/
def calculate_growth_metrics (rid : Nat) (today : Int)
    (table : List SnapshotRow) : Option GrowthMetrics :=
  match get_snapshot_near rid today table with
  | none => none
  | some current =>
    let week_ago_snap := get_snapshot_near rid (today - 7) table
    let two_weeks_snap := get_snapshot_near rid (today - 14) table
    let month_ago_snap := get_snapshot_near rid (today - 30) table
    let stars_wow := match week_ago_snap with
      | some w => calculate_growth_rate current.metrics.stars w.metrics.stars
      | none => none
    let forks_wow := match week_ago_snap with
      | some w => calculate_growth_rate current.metrics.forks w.metrics.forks
      | none => none
    let downloads_wow := match week_ago_snap with
      | some w => calculate_growth_rate current.metrics.downloads w.metrics.downloads
      | none => none
    let contributors_wow := match week_ago_snap with
      | some w => calculate_growth_rate current.metrics.contributors w.metrics.contributors
      | none => none
    let stars_mom := match month_ago_snap with
      | some m => calculate_growth_rate current.metrics.stars m.metrics.stars
      | none => none
    let forks_mom := match month_ago_snap with
      | some m => calculate_growth_rate current.metrics.forks m.metrics.forks
      | none => none
    let downloads_mom := match month_ago_snap with
      | some m => calculate_growth_rate current.metrics.downloads m.metrics.downloads
      | none => none
    let contributors_mom := match month_ago_snap with
      | some m => calculate_growth_rate current.metrics.contributors m.metrics.contributors
      | none => none
    let stars_acceleration := match week_ago_snap, two_weeks_snap with
      | some w, some tw =>
        let prev_wow := calculate_growth_rate w.metrics.stars tw.metrics.stars
        match stars_wow, prev_wow with
        | some a, some b => some (pyRound2 (a - b))
        | _, _ => none
      | _, _ => none
    some ⟨stars_wow, stars_mom, stars_acceleration, forks_wow, forks_mom,
      downloads_wow, downloads_mom, contributors_wow, contributors_mom⟩

/-- The WoW star growth as of date `t`: the snapshot nearest on-or-before `t`
compared against the snapshot nearest on-or-before `t-7d` (spec wording). -/
def wowStars (rid : Nat) (t : Int) (table : List SnapshotRow) : Option ℚ :=
  match get_snapshot_near rid t table, get_snapshot_near rid (t - 7) table with
  | some c, some w => calculate_growth_rate c.metrics.stars w.metrics.stars
  | _, _ => none

/-- The spec's acceleration formula: `round(wow - wow_prev, 2)` when both WoW
values are defined, else `None`. -/
def accelFromWow : Option ℚ → Option ℚ → Option ℚ
  | some a, some b => some (pyRound2 (a - b))
  | _, _ => none

/-! ## Growth-metrics persistence (src/database.py lines 257-270 and
src/dashboard_v2.py lines 381-392) -/

/-- One row of the `growth_metrics` table (schema lines 69-88).  Score columns
are nullable and default to NULL. -/
structure GrowthRow where
  repo_id : Nat
  calculated_at : Int
  stars_wow : Option ℚ
  stars_mom : Option ℚ
  stars_acceleration : Option ℚ
  forks_wow : Option ℚ
  forks_mom : Option ℚ
  downloads_wow : Option ℚ
  downloads_mom : Option ℚ
  contributors_wow : Option ℚ
  contributors_mom : Option ℚ
  traction_score : Option Int
  investability_score : Option Int
  deriving DecidableEq

/-- The UNIQUE key of the `growth_metrics` table: `(repo_id, calculated_at)`. -/
def growthKey (rid : Nat) (d : Int) (r : GrowthRow) : Bool :=
  r.repo_id == rid && r.calculated_at == d

/-- The row written by the `INSERT OR REPLACE` of `calculate_growth_metrics`
(lines 258-270): the score columns are not in the column list, so the
replacement row holds their NULL defaults. -/
def growthRowOf (rid : Nat) (d : Int) (g : GrowthMetrics) : GrowthRow :=
  ⟨rid, d, g.stars_wow, g.stars_mom, g.stars_acceleration, g.forks_wow,
    g.forks_mom, g.downloads_wow, g.downloads_mom, g.contributors_wow,
    g.contributors_mom, none, none⟩

/-- Embedding of the `INSERT OR REPLACE INTO growth_metrics` statement. -/
def save_growth_metrics (rid : Nat) (d : Int) (g : GrowthMetrics)
    (table : List GrowthRow) : List GrowthRow :=
  table.filter (fun r => !(growthKey rid d r)) ++ [growthRowOf rid d g]

/-- Largest `calculated_at` among rows of `rid` — the subquery
`SELECT MAX(calculated_at) FROM growth_metrics WHERE repo_id = ?`. -/
def maxCalcAt (rid : Nat) : List GrowthRow → Option Int
  | [] => none
  | r :: rs =>
    let rest := maxCalcAt rid rs
    if r.repo_id = rid then
      match rest with
      | none => some r.calculated_at
      | some m => some (max m r.calculated_at)
    else rest

/-- The row of `growth_metrics` with both scores attached. -/
def growthRowWithScores (rid : Nat) (d : Int) (g : GrowthMetrics)
    (ts inv : Int) : GrowthRow :=
  ⟨rid, d, g.stars_wow, g.stars_mom, g.stars_acceleration, g.forks_wow,
    g.forks_mom, g.downloads_wow, g.downloads_mom, g.contributors_wow,
    g.contributors_mom, some ts, some inv⟩

/-- Embedding of the later `UPDATE growth_metrics SET traction_score = ?,
investability_score = ? WHERE repo_id = ? AND calculated_at = (SELECT MAX…)`
in `dashboard_v2.analyze_and_store_repo` (lines 381-392). -/
def update_growth_scores (rid : Nat) (ts inv : Int)
    (table : List GrowthRow) : List GrowthRow :=
  match maxCalcAt rid table with
  | none => table
  | some m =>
    table.map fun r =>
      if r.repo_id = rid ∧ r.calculated_at = m then
        { r with traction_score := some ts, investability_score := some inv }
      else r

/-! ## Example inputs for witnesses -/

/-- A snapshot metric record carrying only a star count. -/
def starsOnly (s : Option ℚ) : SnapMetrics :=
  ⟨s, none, none, none, none, none, none, none, none⟩

/-- Example snapshot table: stars 648/5 at day 100, 108 at day 93, 100 at
day 86; WoW(100) = 20, WoW(93) = 8, acceleration 12. -/
def exTable : List SnapshotRow :=
  [⟨1, 100, starsOnly (some (648/5))⟩, ⟨1, 93, starsOnly (some 108)⟩,
   ⟨1, 86, starsOnly (some 100)⟩]

/-- The growth record computed from `exTable` at day 100. -/
def exGM : GrowthMetrics :=
  ⟨some 20, none, some 12, none, none, none, none, none, none⟩

/-! ## Non-investable filter (src/analysis.py lines 112-155) -/

/-- `NON_INVESTABLE_PATTERNS['name_patterns']`. -/
def name_patterns : List String :=
  ["awesome-", "awesome_", "-awesome", "_awesome",
   "cheatsheet", "cheat-sheet", "cheat_sheet",
   "interview", "leetcode", "algorithm", "data-structure",
   "tutorial", "learn-", "learning-", "-tutorial",
   "example", "sample", "demo", "boilerplate", "starter",
   "course", "roadmap", "guide", "handbook", "book",
   "dotfiles", "config", "setup"]

/-- `NON_INVESTABLE_PATTERNS['description_patterns']`. -/
def description_patterns : List String :=
  ["curated list", "awesome list", "collection of",
   "interview prep", "coding interview", "system design interview",
   "cheat sheet", "cheatsheet", "quick reference",
   "learning resource", "study guide", "course material",
   "my personal", "my dotfiles", "my config"]

/-- Embedding of `is_non_investable_repo(name, description)` (lines 137-155):
name patterns are checked first, then description patterns; the first match
short-circuits.  The reason payload is modelled as the matched pattern. -/
def is_non_investable_repo (name : String) (description : Option String) :
    Bool × Option String :=
  let nl := lowerStr name
  let dl := lowerStr (description.getD "")
  match name_patterns.find? (fun p => occursIn p nl) with
  | some p => (true, some p)
  | none =>
    match description_patterns.find? (fun p => occursIn p dl) with
    | some p => (true, some p)
    | none => (false, none)

/-! ## Category classifier (src/analysis.py lines 48-101 and 158-179) -/

/-- `CATEGORY_KEYWORDS['ai-ml']`. -/
def aiml_kws : List String :=
  ["llm", "gpt", "transformer", "neural", "deep learning", "machine learning",
   "ml", "ai", "artificial intelligence", "nlp", "computer vision", "cv",
   "embedding", "vector", "rag", "agent", "chatbot", "generative",
   "diffusion", "stable diffusion", "language model", "fine-tun",
   "inference", "training", "model", "pytorch", "tensorflow", "hugging"]

/-- `CATEGORY_KEYWORDS['devtools']`. -/
def devtools_kws : List String :=
  ["developer", "ide", "editor", "debugger", "profiler", "linter",
   "formatter", "cli", "command line", "terminal", "shell", "sdk",
   "api", "framework", "library", "toolkit", "devtool", "dx",
   "code generation", "copilot", "autocomplete", "snippet"]

/-- `CATEGORY_KEYWORDS['infrastructure']`. -/
def infrastructure_kws : List String :=
  ["kubernetes", "k8s", "docker", "container", "orchestration",
   "infrastructure", "infra", "cloud", "serverless", "lambda",
   "terraform", "pulumi", "ansible", "helm", "gitops", "ci/cd",
   "pipeline", "deployment", "scaling", "load balancer", "proxy",
   "service mesh", "istio", "envoy", "ingress"]

/-- `CATEGORY_KEYWORDS['data']`. -/
def data_kws : List String :=
  ["database", "sql", "nosql", "postgres", "mysql", "redis",
   "elasticsearch", "kafka", "streaming", "etl", "pipeline",
   "data warehouse", "analytics", "olap", "oltp", "timeseries",
   "graph database", "vector database", "data lake", "spark",
   "flink", "airflow", "dagster", "dbt", "data engineering"]

/-- `CATEGORY_KEYWORDS['security']`. -/
def security_kws : List String :=
  ["security", "auth", "authentication", "authorization", "oauth",
   "sso", "identity", "iam", "rbac", "encryption", "cryptography",
   "vulnerability", "scanner", "pentest", "penetration", "siem",
   "firewall", "waf", "devsecops", "secrets", "vault", "compliance"]

/-- `CATEGORY_KEYWORDS['observability']`. -/
def observability_kws : List String :=
  ["monitoring", "observability", "logging", "tracing", "metrics",
   "apm", "alerting", "dashboard", "grafana", "prometheus",
   "opentelemetry", "jaeger", "zipkin", "elk", "log aggregation"]

/-- `CATEGORY_KEYWORDS['frontend']`. -/
def frontend_kws : List String :=
  ["react", "vue", "angular", "svelte", "frontend", "ui", "ux",
   "component", "design system", "css", "tailwind", "styled",
   "animation", "web", "browser", "dom", "javascript", "typescript"]

/-- `CATEGORY_KEYWORDS['backend']`. -/
def backend_kws : List String :=
  ["backend", "server", "rest", "graphql", "grpc", "websocket",
   "microservice", "monolith", "api gateway", "rate limit",
   "caching", "queue", "message broker", "event driven"]

/-- `CATEGORY_KEYWORDS['fintech']`. -/
def fintech_kws : List String :=
  ["payment", "fintech", "banking", "trading", "crypto", "blockchain",
   "defi", "wallet", "transaction", "ledger", "invoice", "billing"]

/-- The keyword table, in the dict's insertion (enumeration) order. -/
def CATEGORY_KEYWORDS : List (String × List String) :=
  [("ai-ml", aiml_kws), ("devtools", devtools_kws),
   ("infrastructure", infrastructure_kws), ("data", data_kws),
   ("security", security_kws), ("observability", observability_kws),
   ("frontend", frontend_kws), ("backend", backend_kws),
   ("fintech", fintech_kws)]

/-- `sum(1 for kw in keywords if kw in text)` (line 171). -/
def kwScore (kws : List String) (text : String) : Nat :=
  kws.countP (fun kw => occursIn kw text)

/-- Score of every category on a text, in enumeration order. -/
def categoryScores (text : String) : List (String × Nat) :=
  CATEGORY_KEYWORDS.map (fun ck => (ck.1, kwScore ck.2 text))

/-- Python's `max(scores, key=scores.get)` over an association list in
insertion order: the first entry attaining the maximal score. -/
def pickBest : List (String × Nat) → Option (String × Nat)
  | [] => none
  | p :: ps =>
    match pickBest ps with
    | none => some p
    | some q => if p.2 < q.2 then some q else some p

/-- The text assembled by `categorize_repo` (lines 160-167): lower-cased
description, plus the joined topics when the topic list is truthy, plus the
first 2000 characters of the lower-cased README when truthy. -/
def buildText (description : Option String) (topics : Option (List String))
    (readme : Option String) : String :=
  let t0 := lowerStr (description.getD "")
  let t1 := match topics with
    | some ts =>
      if ts.isEmpty then t0
      else t0 ++ " " ++ lowerStr (String.intercalate " " ts)
    | none => t0
  match readme with
  | some r => if r = "" then t1 else t1 ++ " " ++ strTake (lowerStr r) 2000
  | none => t1

/-- Embedding of `categorize_repo(description, topics, readme)`
(lines 158-179). -/
def categorize_repo (description : Option String) (topics : Option (List String))
    (readme : Option String) : String :=
  let text := buildText description topics readme
  match pickBest ((categoryScores text).filter (fun p => 0 < p.2)) with
  | none => "other"
  | some p => p.1

/-- The maximal score in a score list (0 when empty). -/
def maxScoreVal (l : List (String × Nat)) : Nat :=
  l.foldr (fun p acc => max p.2 acc) 0

/-- The spec's description of the classifier: the category with the strictly
highest nonzero score, ties broken by enumeration order, `other` when no
keyword matches. -/
def specPick (l : List (String × Nat)) : String :=
  if maxScoreVal l = 0 then "other"
  else
    match l.find? (fun p => p.2 == maxScoreVal l) with
    | some p => p.1
    | none => "other"

/-! ## Commercial-signal detector (src/analysis.py lines 429-493) -/

/-- The signals dict returned by `detect_commercial_signals`. -/
structure CommercialSignals where
  has_company : Bool
  has_pricing : Bool
  has_enterprise : Bool
  has_cloud : Bool
  has_docs_site : Bool
  commercial_score : Int
  deriving DecidableEq

/-- `pricing_keywords` (lines 450-452). -/
def pricing_keywords : List String :=
  ["pricing", "plans", "enterprise", "pro version", "premium",
   "subscription", "license", "commercial", "paid", "free tier",
   "contact sales", "book a demo", "request demo", "talk to sales"]

/-- `enterprise_keywords` (lines 460-462). -/
def enterprise_keywords : List String :=
  ["enterprise", "sso", "saml", "ldap", "audit log",
   "role-based", "rbac", "compliance", "soc 2", "hipaa",
   "gdpr", "on-premise", "self-hosted", "air-gapped"]

/-- `cloud_keywords` (lines 469-470). -/
def cloud_keywords : List String :=
  ["cloud", "hosted", "saas", "managed", "our platform",
   "sign up", "get started", "try for free", "start free"]

/-- `company_keywords` (lines 478-479). -/
def company_keywords : List String :=
  ["our team", "about us", "careers", "we are", "our company",
   "founded", "investors", "backed by", "raised", "funding"]

/-- The text scanned by `detect_commercial_signals` (lines 443-447):
lower-cased description and first 5000 characters of the lower-cased README,
each followed by one space, skipped when falsy. -/
def commText (d rm : Option String) : String :=
  (match d with
   | some s => if s = "" then "" else lowerStr s ++ " "
   | none => "") ++
  (match rm with
   | some s => if s = "" then "" else strTake (lowerStr s) 5000 ++ " "
   | none => "")

/-- Embedding of `detect_commercial_signals(description, readme, homepage)`
(lines 429-493).  Each keyword group is one presence check (the source's
for-loop with `break` is `List.any`); the enterprise group requires at least
2 matching keywords; a truthy homepage not containing `github.com` sets the
docs-site flag.  The score contributions are accumulated in source order. -/
def detect_commercial_signals (d rm hp : Option String) : CommercialSignals :=
  let text := commText d rm
  let has_pricing := pricing_keywords.any (fun kw => occursIn kw text)
  let score1 : Int := if has_pricing then 2 else 0
  let has_enterprise : Bool :=
    decide (2 ≤ enterprise_keywords.countP (fun kw => occursIn kw text))
  let score2 := score1 + (if has_enterprise then 3 else 0)
  let has_cloud := cloud_keywords.any (fun kw => occursIn kw text)
  let score3 := score2 + (if has_cloud then 2 else 0)
  let has_company := company_keywords.any (fun kw => occursIn kw text)
  let score4 := score3 + (if has_company then 2 else 0)
  let has_docs_site := match hp with
    | some h => (h != "") && !(occursIn "github.com" (lowerStr h))
    | none => false
  let score5 := score4 + (if has_docs_site then 1 else 0)
  ⟨has_company, has_pricing, has_enterprise, has_cloud, has_docs_site, score5⟩

/-! ## Investability scorer (src/analysis.py lines 236-407)

`metrics.get(k, 0) or 0` maps an absent or `None` value to 0 (`orZero`);
`created_at` is modelled as `Option (Option Int)`: `none` when absent or
falsy, `some none` when the timestamp fails to parse (the `except: pass`
path), `some (some d)` when it parses to an entity age of `d` days. -/

/-- The metric fields read by the scorers. -/
structure Metrics where
  stars : Option Int
  downloads : Option Int
  dependents : Option Int
  contributors : Option Int
  prs_30d : Option Int
  commits_3mo : Option Int
  deriving DecidableEq

/-- Python `metrics.get(key, 0) or 0`. -/
def orZero (o : Option Int) : Int := o.getD 0

/-- The growth fields read by the investability scorer. -/
structure GrowthVals where
  stars_mom : Option ℚ
  stars_acceleration : Option ℚ
  downloads_mom : Option ℚ
  deriving DecidableEq

/-- Python `growth_metrics.get(key, 0) or 0`. -/
def orZeroQ (o : Option ℚ) : ℚ := o.getD 0

/-- Star-count bucket (lines 254-262, up to 15 points). -/
def starsPoints (stars : Int) : Int :=
  if 10000 ≤ stars then 15
  else if 5000 ≤ stars then 12
  else if 1000 ≤ stars then 9
  else if 500 ≤ stars then 6
  else 0

/-- Download bucket (lines 265-273, up to 20 points). -/
def downloadsPoints (dl : Int) : Int :=
  if 100000 ≤ dl then 20
  else if 10000 ≤ dl then 15
  else if 1000 ≤ dl then 10
  else if 0 < dl then 5
  else 0

/-- Dependents bucket (lines 276-286, up to 25 points). -/
def dependentsPoints (dep : Int) : Int :=
  if 500 ≤ dep then 25
  else if 100 ≤ dep then 20
  else if 50 ≤ dep then 15
  else if 10 ≤ dep then 10
  else if 0 < dep then 5
  else 0

/-- Contributor bucket (lines 289-297, up to 10 points). -/
def contributorsPoints (c : Int) : Int :=
  if 50 ≤ c then 10
  else if 20 ≤ c then 7
  else if 5 ≤ c then 5
  else if 1 < c then 2
  else 0

/-- PR/commit activity bucket (lines 300-307, up to 10 points). -/
def activityPoints (prs commits : Int) : Int :=
  if 50 ≤ prs ∨ 200 ≤ commits then 10
  else if 20 ≤ prs ∨ 100 ≤ commits then 7
  else if 5 ≤ prs ∨ 30 ≤ commits then 4
  else 0

/-- Growth/velocity bucket (lines 310-337): MoM tier + acceleration tier +
download-MoM tier; 0 when the growth dict is absent or empty (falsy). -/
def growthPoints (g : Option GrowthVals) : Int :=
  match g with
  | none => 0
  | some gv =>
    let stars_mom := orZeroQ gv.stars_mom
    let acceleration := orZeroQ gv.stars_acceleration
    let downloads_mom := orZeroQ gv.downloads_mom
    (if 100 ≤ stars_mom then 12
     else if 50 ≤ stars_mom then 10
     else if 20 ≤ stars_mom then 7
     else if 10 ≤ stars_mom then 4
     else 0) +
    (if 10 < acceleration then 8
     else if 5 < acceleration then 6
     else if 0 < acceleration then 3
     else 0) +
    (if 50 ≤ downloads_mom then 5
     else if 20 ≤ downloads_mom then 3
     else 0)

/-- Funding-gap bonus (lines 341-345). -/
def fundingGapBonus (fs : Option String) (stars downloads : Int) : Int :=
  if fs = some "unfunded" ∨ fs = some "unknown" then
    if 5000 ≤ stars ∨ 10000 ≤ downloads then 5
    else if 1000 ≤ stars then 3
    else 0
  else 0

/-- Hot-category bonus (lines 348-350). -/
def hotCategoryBonus (c : Option String) : Int :=
  if c = some "ai-ml" ∨ c = some "security" ∨ c = some "infrastructure" ∨
      c = some "devtools" then 5
  else 0

/-- Non-investable penalty (lines 355-358): applied only when both
`repo_name` and `description` are truthy and the filter flags the repo. -/
def nonInvPenalty (repo_name description : Option String) : Int :=
  match repo_name, description with
  | some n, some d =>
    if n ≠ "" ∧ d ≠ "" ∧ (is_non_investable_repo n (some d)).1 = true then -30
    else 0
  | _, _ => 0

/-- Single-maintainer low-activity penalty (lines 361-365). -/
def maintainerPenalty (contributors prs commits : Int) : Int :=
  if contributors ≤ 1 ∧ prs < 5 ∧ commits < 20 then -15 else 0

/-- Old-unfunded-project penalty (lines 368-382), transcribed exactly: the
`if age_days > 730` branch precedes the `elif age_days > 1095` branch. -/
def agePenalty (fs : Option String) (age : Option (Option Int)) : Int :=
  match age with
  | some (some d) =>
    if fs = some "unknown" ∨ fs = some "unfunded" then
      if 730 < d then -10
      else if 1095 < d then -15
      else 0
    else 0
  | _ => 0

/-- Young-breakout bonus (lines 387-404). -/
def breakoutBonus (age : Option (Option Int)) (stars dependents : Int) : Int :=
  match age with
  | some (some d) =>
    if d < 180 then
      if 1000 ≤ stars ∨ 20 ≤ dependents then 10
      else if 500 ≤ stars ∨ 10 ≤ dependents then 5
      else 0
    else 0
  | _ => 0

/-- The sum of all bucket contributions, bonuses and penalties of
`calculate_investability_score` before the final clamp. -/
def investabilityRaw (m : Metrics) (g : Option GrowthVals)
    (fs cat rn desc : Option String) (age : Option (Option Int)) : Int :=
  let stars := orZero m.stars
  let downloads := orZero m.downloads
  let dependents := orZero m.dependents
  let contributors := orZero m.contributors
  let prs := orZero m.prs_30d
  let commits := orZero m.commits_3mo
  starsPoints stars + downloadsPoints downloads + dependentsPoints dependents +
    contributorsPoints contributors + activityPoints prs commits +
    growthPoints g + fundingGapBonus fs stars downloads +
    hotCategoryBonus cat + nonInvPenalty rn desc +
    maintainerPenalty contributors prs commits + agePenalty fs age +
    breakoutBonus age stars dependents

/-- Embedding of `calculate_investability_score(...)` (lines 236-407):
the accumulated score clamped by `max(0, min(score, 100))`. -/
def calculate_investability_score (m : Metrics) (g : Option GrowthVals)
    (fs cat rn desc : Option String) (age : Option (Option Int)) : Int :=
  max 0 (min (investabilityRaw m g fs cat rn desc age) 100)

/-! ## Series-A fit scorer (src/analysis.py lines 496-573) -/

/-- Star sweet-spot band (lines 509-518). -/
def seriesAStarBand (s : Int) : Int :=
  if 1000 ≤ s ∧ s ≤ 30000 then 15
  else if 500 ≤ s ∧ s < 1000 then 10
  else if 30000 < s ∧ s ≤ 50000 then 5
  else if 50000 < s then -15
  else if s < 200 then -10
  else 0

/-- Team-size band (lines 521-526). -/
def seriesATeamBand (c : Int) : Int :=
  if 5 ≤ c ∧ c ≤ 50 then 10
  else if 50 < c then 5
  else if c ≤ 2 then -15
  else 0

/-- Real-usage band (lines 529-534). -/
def seriesAUsageBand (dep dl : Int) : Int :=
  if 50 ≤ dep ∨ 10000 ≤ dl then 15
  else if 10 ≤ dep ∨ 1000 ≤ dl then 10
  else if 0 < dep ∨ 0 < dl then 5
  else 0

/-- Age band in months (`age_days / 30`, lines 537-555). -/
def seriesAAgeBand (age : Option (Option Int)) : Int :=
  match age with
  | some (some d) =>
    let months : ℚ := (d : ℚ) / 30
    if 6 ≤ months ∧ months ≤ 24 then 10
    else if 3 ≤ months ∧ months < 6 then 5
    else if 24 < months ∧ months ≤ 36 then 0
    else if 36 < months then -10
    else 0
  | _ => 0

/-- Funding-stage band (lines 558-563). -/
def seriesAFundingBand (fs : Option String) : Int :=
  if fs = some "seed" then 15
  else if fs = some "unknown" then 10
  else if fs = some "series-a" ∨ fs = some "series-b" ∨ fs = some "series-c" ∨
      fs = some "series-d" then -20
  else 0

/-- Commercial-signal contribution (lines 566-571). -/
def seriesACommercial (cs : Option CommercialSignals) : Int :=
  match cs with
  | none => 0
  | some c =>
    c.commercial_score + (if c.has_pricing then 5 else 0) +
      (if c.has_enterprise then 5 else 0)

/-- Embedding of `calculate_series_a_fit(...)` (lines 496-573): neutral
baseline 50 plus the bands, clamped by `max(0, min(100, score))`. -/
def calculate_series_a_fit (m : Metrics) (fs : Option String)
    (age : Option (Option Int)) (cs : Option CommercialSignals) : Int :=
  max 0 (min 100
    (50 + seriesAStarBand (orZero m.stars) +
      seriesATeamBand (orZero m.contributors) +
      seriesAUsageBand (orZero m.dependents) (orZero m.downloads) +
      seriesAAgeBand age + seriesAFundingBand fs + seriesACommercial cs))

/-- Example metric record used by the C6 counterexample: its bucket
contributions total 69 with funding `unknown` and category `ai-ml`. -/
def exInvMetrics : Metrics :=
  ⟨some 5000, some 10000, some 100, some 10, some 20, some 0⟩

/-! # Theorems -/

/-- Helper: filtering by a predicate after removing everything satisfying it
yields the empty list. -/
theorem filter_not_self {α : Type} (p : α → Bool) (l : List α) :
    (l.filter fun a => !(p a)).filter p = [] := by
  induction l with
  | nil => rfl
  | cons a l ih => by_cases h : p a <;> simp [List.filter_cons, h, ih]

/-- Helper: an upsert (remove-by-key then append) leaves exactly the new row
under its key. -/
theorem filter_upsert {α : Type} (k : α → Bool) (x : α) (hx : k x = true)
    (l : List α) : ((l.filter fun a => !(k a)) ++ [x]).filter k = [x] := by
  simp [List.filter_append, filter_not_self, hx]

/-- Claim C2: `calculate_growth_rate` returns `None` exactly when the previous
value is absent, the previous value is exactly 0, or the current value is
absent; otherwise it returns `round(((current - previous) / previous) * 100, 2)`.
In particular `growth_rate(120, 100) = 20.0`, `growth_rate(80, 0) = None`,
and `growth_rate(None, 100) = None`. -/
theorem calculate_growth_rate_spec :
    (∀ c p : Option ℚ,
      calculate_growth_rate c p = none ↔ (p = none ∨ p = some 0 ∨ c = none)) ∧
    (∀ cv pv : ℚ,
      calculate_growth_rate (some cv) (some pv) =
        if pv = 0 then none else some (pyRound2 ((cv - pv) / pv * 100))) ∧
    calculate_growth_rate (some 120) (some 100) = some 20 ∧
    calculate_growth_rate (some 80) (some 0) = none ∧
    calculate_growth_rate none (some 100) = none := by
  refine ⟨?_, ?_, by with_unfolding_all decide, by with_unfolding_all decide,
    by with_unfolding_all decide⟩
  · intro c p
    cases p with
    | none => simp [calculate_growth_rate]
    | some pv =>
      cases c with
      | none => simp [calculate_growth_rate]
      | some cv =>
        by_cases hp : pv = 0 <;> simp [calculate_growth_rate, hp]
  · intro cv pv
    by_cases hp : pv = 0 <;> simp [calculate_growth_rate, hp]

/-- Claim C1: writing a snapshot via upsert when one already exists for that
(entity, date) fully replaces it, leaving exactly one Snapshot for that key
holding the latest values; repeated upserts never duplicate and never error
(`save_snapshot` is total). -/
theorem save_snapshot_upsert_law (t : List SnapshotRow) (rid : Nat) (d : Int)
    (m1 m2 : SnapMetrics) :
    (save_snapshot rid d m1 t).filter (snapKey rid d) = [⟨rid, d, m1⟩] ∧
    (save_snapshot rid d m2 (save_snapshot rid d m1 t)).filter (snapKey rid d) =
      [⟨rid, d, m2⟩] := by
  have hx : ∀ m : SnapMetrics, snapKey rid d ⟨rid, d, m⟩ = true := by
    intro m; simp [snapKey]
  exact ⟨filter_upsert _ _ (hx m1) t, filter_upsert _ _ (hx m2) _⟩

/-- Claim C9: recomputing growth for a (entity, date) writes the replacement
row without the score columns, so previously attached scores are reset to
NULL; they are re-attached only by the separate later UPDATE. -/
theorem growth_replace_resets_scores (t : List GrowthRow) (rid : Nat) (d : Int)
    (g : GrowthMetrics) :
    (save_growth_metrics rid d g t).filter (growthKey rid d) = [growthRowOf rid d g] ∧
    (growthRowOf rid d g).traction_score = none ∧
    (growthRowOf rid d g).investability_score = none ∧
    (update_growth_scores rid 55 60 (save_growth_metrics rid d g [])).filter
        (growthKey rid d) = [growthRowWithScores rid d g 55 60] := by
  have hx : growthKey rid d (growthRowOf rid d g) = true := by
    simp [growthKey, growthRowOf]
  refine ⟨filter_upsert _ _ hx t, rfl, rfl, ?_⟩
  simp [save_growth_metrics, update_growth_scores, maxCalcAt, growthRowOf,
    growthKey, growthRowWithScores, List.filter_cons]

/-- Helper: the spec acceleration is undefined when either WoW is undefined. -/
theorem accelFromWow_none_right (x : Option ℚ) : accelFromWow x none = none := by
  cases x <;> rfl

/-- Claim C3: star-growth acceleration at date T equals
round(wow(T) - wow_prev, 2) where wow_prev compares the snapshot nearest
on-or-before T-7d against the one nearest on-or-before T-14d; it is None
whenever either WoW value is undefined. -/
theorem stars_acceleration_spec (rid : Nat) (t : Int) (table : List SnapshotRow)
    (gm : GrowthMetrics) (h : calculate_growth_metrics rid t table = some gm) :
    gm.stars_acceleration =
      accelFromWow (wowStars rid t table) (wowStars rid (t - 7) table) := by
  have h77 : t - 7 - 7 = t - 14 := by ring
  unfold calculate_growth_metrics at h
  unfold wowStars
  rw [h77]
  cases hc : get_snapshot_near rid t table with
  | none => rw [hc] at h; cases h
  | some cur =>
    rw [hc] at h
    simp only [Option.some.injEq] at h
    subst h
    cases hw : get_snapshot_near rid (t - 7) table with
    | none => simp [accelFromWow]
    | some w =>
      cases htw : get_snapshot_near rid (t - 14) table with
      | none => simp [accelFromWow_none_right]
      | some tw =>
        simp only
        cases calculate_growth_rate cur.metrics.stars w.metrics.stars <;>
          cases calculate_growth_rate w.metrics.stars tw.metrics.stars <;>
            rfl

/-- Witness for C3: on the concrete table with WoW(T)=20 and WoW(T-7d)=8 the
theorem applies and the stored acceleration is 12. -/
theorem stars_acceleration_spec_witness :
    calculate_growth_metrics 1 100 exTable = some exGM ∧
    exGM.stars_acceleration =
      accelFromWow (wowStars 1 100 exTable) (wowStars 1 (100 - 7) exTable) ∧
    exGM.stars_acceleration = some 12 :=
  ⟨by with_unfolding_all decide,
   stars_acceleration_spec 1 100 exTable exGM (by with_unfolding_all decide),
   by with_unfolding_all decide⟩

/-- Claim C4: both scorers return a value in [0, 100] for every input; no
combination of bonuses or penalties leaks past the final clamp. -/
theorem scorers_bounded (m : Metrics) (g : Option GrowthVals)
    (fs cat rn desc : Option String) (age : Option (Option Int))
    (cs : Option CommercialSignals) :
    0 ≤ calculate_investability_score m g fs cat rn desc age ∧
    calculate_investability_score m g fs cat rn desc age ≤ 100 ∧
    0 ≤ calculate_series_a_fit m fs age cs ∧
    calculate_series_a_fit m fs age cs ≤ 100 := by
  unfold calculate_investability_score calculate_series_a_fit
  exact ⟨le_max_left _ _, max_le (by norm_num) (min_le_right _ _),
    le_max_left _ _, max_le (by norm_num) (min_le_left _ _)⟩

/-- Claim C5 (code bug): the source's own `# >3 years` comment and the spec
say −15 supersedes −10 past 1095 days, but because the `if age_days > 730`
branch precedes the `elif age_days > 1095` branch, the −15 branch is dead
code.  The code's actual behaviour, proved here: for funding unknown or
unfunded, the penalty is −10 for every age over 730 days — including ages
over 1095 days such as 1460 — and −15 is never produced. -/
theorem age_penalty_dead_branch :
    (∀ d : Int, agePenalty (some "unknown") (some (some d)) =
      if 730 < d then -10 else 0) ∧
    (∀ d : Int, agePenalty (some "unfunded") (some (some d)) =
      if 730 < d then -10 else 0) ∧
    agePenalty (some "unknown") (some (some 1460)) = -10 := by
  refine ⟨?_, ?_, by decide⟩ <;> intro d <;> by_cases h : (730 : Int) < d
  · simp [agePenalty, h]
  · have h2 : ¬((1095 : Int) < d) := by omega
    simp [agePenalty, h, h2]
  · simp [agePenalty, h]
  · have h2 : ¬((1095 : Int) < d) := by omega
    simp [agePenalty, h, h2]

/-- Claim C6 is refuted: the entity `awesome-x` with empty description is
flagged by the filter (name pattern `awesome-`), yet its investability score
equals that of an identical entity with no name and description supplied —
no 30 points were subtracted, because of the `if repo_name and description`
truthiness guard. -/
theorem non_investable_penalty_cex :
    (is_non_investable_repo "awesome-x" (some "")).1 = true ∧
    calculate_investability_score exInvMetrics none (some "unknown")
      (some "ai-ml") (some "awesome-x") (some "") none = 69 ∧
    calculate_investability_score exInvMetrics none (some "unknown")
      (some "ai-ml") none none none = 69 := by
  refine ⟨by decide, ?_, ?_⟩ <;> with_unfolding_all decide

/-- Claim C6 amended: for every entity whose name and description are both
truthy (non-empty) and which the filter flags, the scorer's accumulated total
is exactly 30 points lower than with those fields absent. -/
theorem non_investable_penalty_amended (m : Metrics) (g : Option GrowthVals)
    (fs cat : Option String) (age : Option (Option Int)) (n d : String)
    (hn : n ≠ "") (hd : d ≠ "")
    (hflag : (is_non_investable_repo n (some d)).1 = true) :
    investabilityRaw m g fs cat (some n) (some d) age =
      investabilityRaw m g fs cat none none age - 30 := by
  have h30 : nonInvPenalty (some n) (some d) = -30 := by
    simp [nonInvPenalty, hn, hd, hflag]
  have h0 : nonInvPenalty none none = (0 : Int) := rfl
  unfold investabilityRaw
  rw [h30, h0]
  ring

/-- Witness for the amended C6 at a concrete flagged entity. -/
theorem non_investable_penalty_amended_witness :
    ("awesome-x" ≠ "") ∧ ("a curated list of tools" ≠ "") ∧
    (is_non_investable_repo "awesome-x" (some "a curated list of tools")).1 = true ∧
    investabilityRaw exInvMetrics none (some "unknown") (some "ai-ml")
        (some "awesome-x") (some "a curated list of tools") none =
      investabilityRaw exInvMetrics none (some "unknown") (some "ai-ml")
        none none none - 30 :=
  ⟨by decide, by decide, by decide,
   non_investable_penalty_amended exInvMetrics none (some "unknown")
     (some "ai-ml") none "awesome-x" "a curated list of tools"
     (by decide) (by decide) (by decide)⟩

/-- Helper: the five fixed contributions sum to a value within [0, 10]. -/
theorem commercial_sum_bounds (b1 b2 b3 b4 b5 : Bool) :
    0 ≤ (if b1 then (2 : Int) else 0) + (if b2 then 3 else 0) +
        (if b3 then 2 else 0) + (if b4 then 2 else 0) +
        (if b5 then 1 else 0) ∧
    (if b1 then (2 : Int) else 0) + (if b2 then 3 else 0) +
        (if b3 then 2 else 0) + (if b4 then 2 else 0) +
        (if b5 then 1 else 0) ≤ 10 := by
  cases b1 <;> cases b2 <;> cases b3 <;> cases b4 <;> cases b5 <;> decide

/-- Claim C8: the commercial score lies in [0, 10] and equals the sum of 2
for a pricing keyword, 3 for at least 2 distinct enterprise keywords, 2 for a
cloud keyword, 2 for a company keyword, and 1 for a homepage not containing
`github.com`; each flag is a function of the assembled text alone, so the
four text checks are independent and order-insensitive. -/
theorem commercial_signals_spec (d rm hp : Option String) :
    (detect_commercial_signals d rm hp).has_pricing =
      pricing_keywords.any (fun kw => occursIn kw (commText d rm)) ∧
    (detect_commercial_signals d rm hp).has_enterprise =
      decide (2 ≤ enterprise_keywords.countP (fun kw => occursIn kw (commText d rm))) ∧
    (detect_commercial_signals d rm hp).has_cloud =
      cloud_keywords.any (fun kw => occursIn kw (commText d rm)) ∧
    (detect_commercial_signals d rm hp).has_company =
      company_keywords.any (fun kw => occursIn kw (commText d rm)) ∧
    (detect_commercial_signals d rm hp).has_docs_site =
      (match hp with
       | some h => (h != "") && !(occursIn "github.com" (lowerStr h))
       | none => false) ∧
    (detect_commercial_signals d rm hp).commercial_score =
      (if (detect_commercial_signals d rm hp).has_pricing then 2 else 0) +
      (if (detect_commercial_signals d rm hp).has_enterprise then 3 else 0) +
      (if (detect_commercial_signals d rm hp).has_cloud then 2 else 0) +
      (if (detect_commercial_signals d rm hp).has_company then 2 else 0) +
      (if (detect_commercial_signals d rm hp).has_docs_site then 1 else 0) ∧
    0 ≤ (detect_commercial_signals d rm hp).commercial_score ∧
    (detect_commercial_signals d rm hp).commercial_score ≤ 10 := by
  refine ⟨rfl, rfl, rfl, rfl, rfl, rfl, ?_, ?_⟩
  · exact (commercial_sum_bounds _ _ _ _ _).1
  · exact (commercial_sum_bounds _ _ _ _ _).2

/-- Helper: unfolding `maxScoreVal` on a cons cell. -/
theorem maxScoreVal_cons (p : String × Nat) (t : List (String × Nat)) :
    maxScoreVal (p :: t) = max p.2 (maxScoreVal t) := rfl

/-- Helper: a zero maximum means every score is zero. -/
theorem maxScoreVal_zero {l : List (String × Nat)} (h : maxScoreVal l = 0) :
    ∀ p ∈ l, p.2 = 0 := by
  induction l with
  | nil => intro p hp; cases hp
  | cons a t ih =>
    rw [maxScoreVal_cons] at h
    rcases Nat.max_eq_zero_iff.mp h with ⟨h1, h2⟩
    intro p hp
    rcases List.mem_cons.mp hp with rfl | hp
    · exact h1
    · exact ih h2 p hp

/-- Helper: when all scores are zero the positive-score filter is empty. -/
theorem filterPos_eq_nil {l : List (String × Nat)} (h : maxScoreVal l = 0) :
    l.filter (fun p => 0 < p.2) = [] := by
  apply List.filter_eq_nil_iff.mpr
  intro p hp
  have h0 := maxScoreVal_zero h p hp
  simp [h0]

/-- Helper: when the maximum is nonzero, `find?` locates the first entry
attaining it. -/
theorem find_attains (l : List (String × Nat)) (h : maxScoreVal l ≠ 0) :
    ∃ q, l.find? (fun p => p.2 == maxScoreVal l) = some q ∧
      q.2 = maxScoreVal l := by
  induction l with
  | nil => exact absurd rfl h
  | cons p t ih =>
    rw [maxScoreVal_cons] at h ⊢
    by_cases hp : p.2 = max p.2 (maxScoreVal t)
    · refine ⟨p, ?_, hp⟩
      rw [← hp]
      simp [List.find?_cons]
    · have hmax : max p.2 (maxScoreVal t) = maxScoreVal t := by omega
      rw [hmax] at h ⊢
      obtain ⟨q, hq, hq2⟩ := ih h
      have hne : (p.2 == maxScoreVal t) = false := by
        simp only [beq_eq_false_iff_ne, ne_eq]
        omega
      refine ⟨q, ?_, hq2⟩
      simp [List.find?_cons, hne, hq]

/-- Helper: Python's first-maximum selection over the positive scores equals
first-match search for the maximal score, when some score is nonzero. -/
theorem pickBest_filter (l : List (String × Nat)) (h : maxScoreVal l ≠ 0) :
    pickBest (l.filter (fun p => 0 < p.2)) =
      l.find? (fun p => p.2 == maxScoreVal l) := by
  induction l with
  | nil => exact absurd rfl h
  | cons p t ih =>
    rw [maxScoreVal_cons] at h ⊢
    by_cases hp0 : 0 < p.2
    · rw [List.filter_cons_of_pos (by simpa using hp0)]
      by_cases hMt : maxScoreVal t = 0
      · rw [filterPos_eq_nil hMt]
        have hmax : max p.2 (maxScoreVal t) = p.2 := by omega
        rw [hmax]
        simp [pickBest, List.find?_cons]
      · obtain ⟨q, hq, hq2⟩ := find_attains t hMt
        have hpb : pickBest (t.filter (fun p => 0 < p.2)) = some q := by
          rw [ih hMt, hq]
        by_cases hlt : p.2 < q.2
        · have hmax : max p.2 (maxScoreVal t) = maxScoreVal t := by omega
          rw [hmax]
          have hne : (p.2 == maxScoreVal t) = false := by
            simp only [beq_eq_false_iff_ne, ne_eq]
            omega
          simp [pickBest, hpb, List.find?_cons, hne, hlt, hq]
        · have hmax : max p.2 (maxScoreVal t) = p.2 := by omega
          rw [hmax]
          simp [pickBest, hpb, List.find?_cons, hlt]
    · have hmax : max p.2 (maxScoreVal t) = maxScoreVal t := by omega
      rw [hmax] at h ⊢
      rw [List.filter_cons_of_neg (by simpa using hp0)]
      have hne : (p.2 == maxScoreVal t) = false := by
        simp only [beq_eq_false_iff_ne, ne_eq]
        omega
      rw [ih h]
      simp [List.find?_cons, hne]

/-- Claim C7: the classifier returns the category with the strictly highest
nonzero keyword score; ties go to the category earliest in enumeration order;
when no keyword matches, the result is `other` (`specPick` states exactly
this selection rule). -/
theorem categorize_repo_spec (d : Option String) (tp : Option (List String))
    (rm : Option String) :
    categorize_repo d tp rm =
      specPick (categoryScores (buildText d tp rm)) := by
  unfold categorize_repo specPick
  dsimp only
  by_cases h : maxScoreVal (categoryScores (buildText d tp rm)) = 0
  · rw [if_pos h, filterPos_eq_nil h]
    rfl
  · rw [if_neg h, pickBest_filter _ h]
    obtain ⟨q, hq, _⟩ := find_attains _ h
    rw [hq]

/-- Claim C10: a category's score is the number of its keywords present in
the text — each keyword contributes at most 1 however often it occurs as a
substring (the score is a function of the presence booleans alone, and is
bounded by the keyword-list length); every category's keyword list is
duplicate-free, and e.g. four occurrences of `ml` still score 1. -/
theorem keyword_score_presence :
    (∀ (kws : List String) (t : String),
      kwScore kws t = (kws.map (fun kw => occursIn kw t)).count true) ∧
    (∀ (kws : List String) (t : String), kwScore kws t ≤ kws.length) ∧
    aiml_kws.Nodup ∧ devtools_kws.Nodup ∧ infrastructure_kws.Nodup ∧
    data_kws.Nodup ∧ security_kws.Nodup ∧ observability_kws.Nodup ∧
    frontend_kws.Nodup ∧ backend_kws.Nodup ∧ fintech_kws.Nodup ∧
    kwScore aiml_kws "ml ml ml ml" = 1 := by
  refine ⟨?_, ?_, by decide, by decide, by decide, by decide, by decide,
    by decide, by decide, by decide, by decide, by decide⟩
  · intro kws t
    induction kws with
    | nil => rfl
    | cons k ks ih =>
      unfold kwScore at ih ⊢
      rw [List.countP_cons, List.map_cons, List.count_cons, ih]
      by_cases h : occursIn k t <;> simp [h]
  · intro kws t
    exact List.countP_le_length _
